import Mathlib

/-!
Verification of `train/train.py` (mvfst-rl), the process-orchestration entry
point of the RL training pipeline.  The script is embedded shallowly:

* a filesystem path is its list of components (`os.path.join base x` is
  `base ++ [x]`; the absolute socket path `/tmp/rl_server_path` is the
  component list `["", "tmp", "rl_server_path"]`, which renders back to the
  original string by interleaving `/`);
* the filesystem is a pair of finite sets of paths (directories and files);
  `os.path.exists`, `shutil.rmtree`, `os.makedirs(..., exist_ok=True)` and
  `os.remove` wrapped in `try/except OSError: pass` are modelled on it
  (error paths of the OS calls that the script never handles, such as a
  file/directory collision at the same path, are outside the model);
* the `flags` namespace object is a record; in-place mutation becomes
  explicit state passing, so `copy.deepcopy(flags)` is simply passing the
  current value and discarding the callee's returned flags;
* `mp.Process(target=..., args=(flags,))` / `start` / `join` / `kill` are
  recorded as an event list, each start event carrying the flags value the
  subprocess is launched with;
* a failing `assert` raises `Err.assertion`, the unknown-mode branch raises
  `Err.runtime`; an error result still carries the flags and filesystem as
  mutated so far, matching Python's in-place mutation surviving the
  exception.
-/

namespace Train

/-- A filesystem path, as its list of components. -/
abbrev Path := List String

/-- Embedding of `os.path.join` for a single relative component. -/
def pathJoin (base : Path) (comp : String) : Path := base ++ [comp]

/-- Render a component-list path back to a string (components joined by `/`). -/
def renderPath (p : Path) : String := String.intercalate "/" p

/-- The filesystem: the set of existing directories and the set of existing
files, each identified by its path. -/
@[ext] structure FS where
  dirs : Finset Path
  files : Finset Path
deriving DecidableEq

/-- Embedding of `os.path.exists`: the path exists as a directory or a file. -/
def pathExists (fs : FS) (p : Path) : Bool :=
  decide (p ∈ fs.dirs) || decide (p ∈ fs.files)

/-- Embedding of `shutil.rmtree p`: every directory and file lying at or
below `p` is removed. -/
def rmtree (fs : FS) (p : Path) : FS where
  dirs := fs.dirs.filter (fun q => ¬ p <+: q)
  files := fs.files.filter (fun q => ¬ p <+: q)

/-- The nonempty prefixes of a path: the path itself and all its ancestors. -/
def prefixesNE (p : Path) : List Path :=
  (List.range p.length).map (fun i => p.take (i + 1))

/-- Embedding of `os.makedirs(p, exist_ok=True)`: `p` and all its ancestors
become directories; nothing is removed and nothing fails if they exist. -/
def makedirs (fs : FS) (p : Path) : FS :=
  { fs with dirs := (prefixesNE p).foldl (fun s q => insert q s) fs.dirs }

/-- Embedding of `os.remove p` under `try ... except OSError: pass`: the file
at `p` is removed if present; a directory at `p` is untouched (the
`IsADirectoryError` is swallowed), and a missing `p` is no error. -/
def removeFile (fs : FS) (p : Path) : FS :=
  { fs with files := fs.files.erase p }

/-- Well-formedness of a filesystem state: every nonempty proper prefix of an
existing entry is an existing directory.  Every state reachable on a real
filesystem satisfies this (a file or directory cannot exist without its
parent directories). -/
def FS.wf (fs : FS) : Prop :=
  ∀ q ∈ fs.dirs ∪ fs.files, ∀ r ∈ prefixesNE q, r = q ∨ r ∈ fs.dirs

instance (fs : FS) : Decidable fs.wf := by
  unfold FS.wf; infer_instance

/-- The `flags` namespace object of the script: the fields `train.py` reads
or writes.  `base_logdir` and `mode` come from the command line; the other
fields are (over)written by the functions below. -/
structure Flags where
  mode : String
  base_logdir : Path
  logdir : Path
  savedir : Path
  checkpoint : Path
  traced_model : Path
  address : String
  disable_cuda : Bool
  cc_env_mode : String
deriving DecidableEq

/-- An abnormal termination of the script: a failing `assert`
(`AssertionError`) or the explicit `RuntimeError` of the unknown-mode
branch. -/
inductive Err where
  | assertion (msg : String)
  | runtime (msg : String)
deriving DecidableEq

/-- An observable process event: creating-and-starting a subprocess with the
flags value passed to it, joining it, or killing it. -/
inductive Ev where
  | start (proc : String) (flags : Flags)
  | join (proc : String)
  | kill (proc : String)
deriving DecidableEq

/-- Whether an event is a subprocess start. -/
def Ev.isStart : Ev → Bool
  | .start _ _ => true
  | _ => false

/-- Number of subprocesses started in an event list. -/
def countStarts (evs : List Ev) : Nat := (evs.filter Ev.isStart).length

/-- Result of `init_logdirs`: either the updated flags and filesystem, or an
assertion failure together with the flags and filesystem as already
mutated. -/
abbrev IRes := Except (Err × Flags × FS) (Flags × FS)

/-- Result of a mode driver (`run_remote`, `test_local`, `trace`, `main`):
the final flags, filesystem and event list, or an error together with the
state and the events that happened before it was raised. -/
abbrev Res := Except (Err × Flags × FS × List Ev) (Flags × FS × List Ev)

instance {ε α : Type} [DecidableEq ε] [DecidableEq α] : DecidableEq (Except ε α) :=
  fun x y =>
    match x, y with
    | .error a, .error b =>
      if h : a = b then .isTrue (congrArg Except.error h)
      else .isFalse (fun hh => h (Except.error.inj hh))
    | .error _, .ok _ => .isFalse (fun hh => Except.noConfusion hh)
    | .ok _, .error _ => .isFalse (fun hh => Except.noConfusion hh)
    | .ok a, .ok b =>
      if h : a = b then .isTrue (congrArg Except.ok h)
      else .isFalse (fun hh => h (Except.ok.inj hh))

/-- Embedding of `init_logdirs(flags)` from `train/train.py`:
sets `flags.logdir = base_logdir/mode` and `flags.savedir = logdir/torchbeast`;
in non-train modes removes a pre-existing `logdir` tree; creates `logdir`
and `savedir`; sets `flags.checkpoint = base_logdir/checkpoint.tar` and
`flags.traced_model = base_logdir/traced_model.pt`; in non-train modes
asserts that the checkpoint path exists. -/
def init_logdirs (flags : Flags) (fs : FS) : IRes :=
  let flags := { flags with logdir := pathJoin flags.base_logdir flags.mode }
  let flags := { flags with savedir := pathJoin flags.logdir "torchbeast" }
  let fs :=
    if flags.mode != "train" && pathExists fs flags.logdir then
      rmtree fs flags.logdir
    else fs
  let fs := makedirs fs flags.logdir
  let fs := makedirs fs flags.savedir
  let flags :=
    { flags with
      checkpoint := pathJoin flags.base_logdir "checkpoint.tar"
      traced_model := pathJoin flags.base_logdir "traced_model.pt" }
  if flags.mode != "train" && !pathExists fs flags.checkpoint then
    .error
      (Err.assertion
        ("Checkpoint " ++ renderPath flags.checkpoint ++ " missing in "
          ++ flags.mode ++ " mode"), flags, fs)
  else
    .ok (flags, fs)

/-- The filesystem produced by the directory phase of `init_logdirs`
(conditional `rmtree` of `logdir`, then `makedirs` of `logdir` and
`savedir`); `init_logdirs` performs its checkpoint check on this state and
returns it in both its outcomes. -/
def init_logdirs_fs (flags : Flags) (fs : FS) : FS :=
  let logdir := pathJoin flags.base_logdir flags.mode
  let savedir := pathJoin logdir "torchbeast"
  let fs :=
    if flags.mode != "train" && pathExists fs logdir then
      rmtree fs logdir
    else fs
  makedirs (makedirs fs logdir) savedir

/-- The flags produced by `init_logdirs`, the same in both its outcomes
(Python mutates the flags object in place before the assert can fire). -/
def init_logdirs_flags (flags : Flags) (fs : FS) : Flags :=
  match init_logdirs flags fs with
  | .ok (f, _) => f
  | .error (_, f, _) => f

/-- The fixed Unix-domain-socket path `/tmp/rl_server_path` used as the RL
server address, as a component list. -/
def rl_server_path : Path := ["", "tmp", "rl_server_path"]

/-- Embedding of `run_remote(flags, train)`: sets the mode, runs
`init_logdirs`, removes a stale socket file, sets `address`, `disable_cuda`
and `cc_env_mode`, then starts `polybeast` and `pantheon_env` and joins the
driving process before killing the other. -/
def run_remote (flags : Flags) (fs : FS) (train : Bool) : Res :=
  let flags := { flags with mode := if train then "train" else "test" }
  match init_logdirs flags fs with
  | .error (e, f, fs) => .error (e, f, fs, [])
  | .ok (flags, fs) =>
    let fs := removeFile fs rl_server_path
    let flags :=
      { flags with
        address := "unix:" ++ renderPath rl_server_path
        disable_cuda := !train
        cc_env_mode := "remote" }
    let evs :=
      [Ev.start "polybeast" flags, Ev.start "pantheon_env" flags] ++
        (if train then [Ev.join "polybeast", Ev.kill "pantheon_env"]
         else [Ev.join "pantheon_env", Ev.kill "polybeast"])
    .ok (flags, fs, evs)

/-- Embedding of `trace(flags)`: sets the mode to `"trace"`, runs
`init_logdirs`, then starts and joins `polybeast`. -/
def trace (flags : Flags) (fs : FS) : Res :=
  let flags := { flags with mode := "trace" }
  match init_logdirs flags fs with
  | .error (e, f, fs) => .error (e, f, fs, [])
  | .ok (flags, fs) =>
    .ok (flags, fs, [Ev.start "polybeast" flags, Ev.join "polybeast"])

/-- Embedding of `test_local(flags)`: sets the mode to `"test"`, runs
`init_logdirs`; if the traced model is missing, runs `trace` on a deep copy
of the flags (value passing: the returned flags of `trace` are discarded,
its filesystem effects are kept); then sets `cc_env_mode` and starts and
joins `pantheon_env`. -/
def test_local (flags : Flags) (fs : FS) : Res :=
  let flags := { flags with mode := "test" }
  match init_logdirs flags fs with
  | .error (e, f, fs) => .error (e, f, fs, [])
  | .ok (flags, fs) =>
    let step : Except (Err × Flags × FS × List Ev) (FS × List Ev) :=
      if pathExists fs flags.traced_model then .ok (fs, [])
      else
        match trace flags fs with
        | .error e => .error e
        | .ok (_, fs, evs) => .ok (fs, evs)
    match step with
    | .error e => .error e
    | .ok (fs, evs) =>
      let flags := { flags with cc_env_mode := "local" }
      .ok (flags, fs, evs ++ [Ev.start "pantheon_env" flags, Ev.join "pantheon_env"])

/-- The flags record produced by `init_logdirs`, written out explicitly:
the four derived path fields over the unchanged remaining fields. -/
def initFlagsF (flags : Flags) : Flags :=
  { flags with
    logdir := pathJoin flags.base_logdir flags.mode
    savedir := pathJoin (pathJoin flags.base_logdir flags.mode) "torchbeast"
    checkpoint := pathJoin flags.base_logdir "checkpoint.tar"
    traced_model := pathJoin flags.base_logdir "traced_model.pt" }

/-- The error raised by `init_logdirs`, when there is one (a junk
`Err.runtime ""` on a successful run). -/
def init_logdirs_err (flags : Flags) (fs : FS) : Err :=
  match init_logdirs flags fs with
  | .ok _ => Err.runtime ""
  | .error (e, _, _) => e

/-- The flags carried by a mode-driver result, in either outcome. -/
def Res.flagsOf : Res → Flags
  | .ok (f, _, _) => f
  | .error (_, f, _, _) => f

/-- The filesystem carried by a mode-driver result, in either outcome. -/
def Res.fsOf : Res → FS
  | .ok (_, fs, _) => fs
  | .error (_, _, fs, _) => fs

/-- The event list carried by a mode-driver result, in either outcome. -/
def Res.evsOf : Res → List Ev
  | .ok (_, _, evs) => evs
  | .error (_, _, _, evs) => evs

/-- The `mode == "train"` branch of `main`: remote training, then tracing,
then a remote test, chaining state and accumulating events. -/
def main_train (flags : Flags) (fs : FS) : Res :=
  match run_remote flags fs true with
  | .error e => .error e
  | .ok (f1, fs1, ev1) =>
    match trace f1 fs1 with
    | .error (e, f, fs, ev) => .error (e, f, fs, ev1 ++ ev)
    | .ok (f2, fs2, ev2) =>
      match run_remote f2 fs2 false with
      | .error (e, f, fs, ev) => .error (e, f, fs, ev1 ++ ev2 ++ ev)
      | .ok (f3, fs3, ev3) => .ok (f3, fs3, ev1 ++ ev2 ++ ev3)

/-- Embedding of `main(flags)`: dispatch on `flags.mode` over the four known
modes; any other mode raises `RuntimeError` without touching the filesystem
or starting a process. -/
def main (flags : Flags) (fs : FS) : Res :=
  if flags.mode == "train" then main_train flags fs
  else if flags.mode == "test" then run_remote flags fs false
  else if flags.mode == "test_local" then test_local flags fs
  else if flags.mode == "trace" then trace flags fs
  else .error (Err.runtime ("Unknown mode " ++ flags.mode), flags, fs, [])

/-- A flags value as produced by the command line: `mode` and `base_logdir`
set, every derived field still at a default. -/
def mkFlags (mode : String) (base : Path) : Flags :=
  { mode := mode, base_logdir := base, logdir := [], savedir := [],
    checkpoint := [], traced_model := [], address := "",
    disable_cuda := false, cc_env_mode := "" }

/-- An empty filesystem. -/
def fsEmpty : FS := { dirs := ∅, files := ∅ }

/-- A filesystem with a base log directory holding a checkpoint, and a stale
`test` log directory containing an old log file. -/
def fsTest : FS :=
  { dirs := {["logs"], ["logs", "test"]},
    files := {["logs", "checkpoint.tar"], ["logs", "test", "old.log"]} }

/-- A filesystem with a base log directory holding a checkpoint but no
traced model. -/
def fsCkpt : FS :=
  { dirs := {["logs"]},
    files := {["logs", "checkpoint.tar"]} }

/-- A filesystem with a stale `trace` log directory containing an old log
file but no checkpoint. -/
def fsNoCkpt : FS :=
  { dirs := {["logs"], ["logs", "trace"]},
    files := {["logs", "trace", "old.log"]} }

lemma mem_foldl_insert (l : List Path) (s : Finset Path) (q : Path) :
    q ∈ l.foldl (fun s q => insert q s) s ↔ q ∈ l ∨ q ∈ s := by
  induction l generalizing s with
  | nil => simp
  | cons a l ih =>
    simp only [List.foldl_cons, ih, Finset.mem_insert, List.mem_cons]
    tauto

lemma makedirs_dirs (fs : FS) (p q : Path) :
    q ∈ (makedirs fs p).dirs ↔ q ∈ prefixesNE p ∨ q ∈ fs.dirs :=
  mem_foldl_insert _ _ _

lemma makedirs_files (fs : FS) (p : Path) : (makedirs fs p).files = fs.files := rfl

lemma rmtree_dirs (fs : FS) (p q : Path) :
    q ∈ (rmtree fs p).dirs ↔ q ∈ fs.dirs ∧ ¬ p <+: q := by
  simp [rmtree, Finset.mem_filter]

lemma rmtree_files (fs : FS) (p q : Path) :
    q ∈ (rmtree fs p).files ↔ q ∈ fs.files ∧ ¬ p <+: q := by
  simp [rmtree, Finset.mem_filter]

lemma mem_prefixesNE (p q : Path) : q ∈ prefixesNE p ↔ q ≠ [] ∧ q <+: p := by
  unfold prefixesNE
  simp only [List.mem_map, List.mem_range]
  constructor
  · rintro ⟨i, hi, rfl⟩
    refine ⟨?_, List.take_prefix _ _⟩
    intro h
    have hlen := congrArg List.length h
    simp only [List.length_take, List.length_nil] at hlen
    omega
  · rintro ⟨hne, hpre⟩
    have h1 := hpre.length_le
    have h2 : 1 ≤ q.length := by
      cases q with
      | nil => exact absurd rfl hne
      | cons a l => simp
    refine ⟨q.length - 1, by omega, ?_⟩
    have htake : q = p.take q.length := List.prefix_iff_eq_take.mp hpre
    rw [show q.length - 1 + 1 = q.length by omega]
    exact htake.symm

lemma pathExists_iff (fs : FS) (p : Path) :
    pathExists fs p = true ↔ p ∈ fs.dirs ∨ p ∈ fs.files := by
  simp [pathExists]

lemma no_entries_below (fs : FS) (hwf : fs.wf) (L : Path) (hL : L ≠ [])
    (hex : ¬ pathExists fs L = true) (q : Path) (hq : L <+: q) :
    q ∉ fs.dirs ∧ q ∉ fs.files := by
  rw [pathExists_iff] at hex
  push_neg at hex
  have key : ∀ r, r ∈ fs.dirs ∪ fs.files → L <+: r → False := by
    intro r hr hLr
    have := hwf r hr L ((mem_prefixesNE _ _).mpr ⟨hL, hLr⟩)
    rcases this with h | h
    · subst h
      rcases Finset.mem_union.mp hr with h' | h'
      · exact hex.1 h'
      · exact hex.2 h'
    · exact hex.1 h
  constructor
  · intro h; exact key q (Finset.mem_union_left _ h) hq
  · intro h; exact key q (Finset.mem_union_right _ h) hq

lemma rerun_fs (fs1 : FS) (L : Path) (t : String)
    (hclean : ∀ q, L <+: q → q ∉ fs1.dirs ∧ q ∉ fs1.files) :
    makedirs (makedirs (rmtree (makedirs (makedirs fs1 L) (L ++ [t])) L) L) (L ++ [t])
      = makedirs (makedirs fs1 L) (L ++ [t]) := by
  apply FS.ext
  · apply Finset.ext
    intro q
    simp only [makedirs_dirs, rmtree_dirs]
    constructor
    · rintro (h | h | ⟨h, _⟩)
      · exact Or.inl h
      · exact Or.inr (Or.inl h)
      · exact h
    · rintro (h | h | h)
      · exact Or.inl h
      · exact Or.inr (Or.inl h)
      · by_cases hLq : L <+: q
        · exact absurd h (hclean q hLq).1
        · exact Or.inr (Or.inr ⟨Or.inr (Or.inr h), hLq⟩)
  · show ((makedirs (makedirs fs1 L) (L ++ [t])).files.filter (fun q => ¬ L <+: q))
      = (makedirs (makedirs fs1 L) (L ++ [t])).files
    apply Finset.filter_true_of_mem
    intro q hq
    rw [makedirs_files, makedirs_files] at hq
    exact fun hLq => (hclean q hLq).2 hq

lemma makedirs_absorb (fs1 : FS) (L S : Path) :
    makedirs (makedirs (makedirs (makedirs fs1 L) S) L) S
      = makedirs (makedirs fs1 L) S := by
  apply FS.ext
  · apply Finset.ext
    intro q
    simp only [makedirs_dirs]
    tauto
  · rfl

lemma init_logdirs_spec (flags : Flags) (fs : FS) :
    init_logdirs flags fs =
      if flags.mode != "train"
          && !pathExists (init_logdirs_fs flags fs)
              (pathJoin flags.base_logdir "checkpoint.tar") then
        .error
          (Err.assertion
            ("Checkpoint " ++ renderPath (pathJoin flags.base_logdir "checkpoint.tar")
              ++ " missing in " ++ flags.mode ++ " mode"),
            initFlagsF flags, init_logdirs_fs flags fs)
      else
        .ok (initFlagsF flags, init_logdirs_fs flags fs) := rfl

lemma init_logdirs_flags_eq (flags : Flags) (fs : FS) :
    init_logdirs_flags flags fs = initFlagsF flags := by
  unfold init_logdirs_flags
  rw [init_logdirs_spec]
  by_cases h :
      (flags.mode != "train"
        && !pathExists (init_logdirs_fs flags fs)
            (pathJoin flags.base_logdir "checkpoint.tar")) = true
  · rw [if_pos h]
  · rw [if_neg h]

lemma initFlagsF_mode (flags : Flags) : (initFlagsF flags).mode = flags.mode := rfl

lemma initFlagsF_base (flags : Flags) :
    (initFlagsF flags).base_logdir = flags.base_logdir := rfl

lemma initFlagsF_idem (flags : Flags) : initFlagsF (initFlagsF flags) = initFlagsF flags := rfl

lemma self_mem_prefixesNE (p : Path) (h : p ≠ []) : p ∈ prefixesNE p :=
  (mem_prefixesNE _ _).mpr ⟨h, List.prefix_rfl⟩

lemma init_ok_dest (flags : Flags) (fs : FS) (f1 : Flags) (fs1 : FS)
    (h : init_logdirs flags fs = .ok (f1, fs1)) :
    f1 = initFlagsF flags ∧ fs1 = init_logdirs_fs flags fs ∧
    (flags.mode != "train"
      && !pathExists (init_logdirs_fs flags fs)
          (pathJoin flags.base_logdir "checkpoint.tar")) = false := by
  rw [init_logdirs_spec] at h
  by_cases hc :
      (flags.mode != "train"
        && !pathExists (init_logdirs_fs flags fs)
            (pathJoin flags.base_logdir "checkpoint.tar")) = true
  · rw [if_pos hc] at h
    simp at h
  · rw [if_neg hc] at h
    simp only [Except.ok.injEq, Prod.mk.injEq] at h
    exact ⟨h.1.symm, h.2.symm, by simpa using hc⟩

lemma init_error_dest (flags : Flags) (fs : FS) (e : Err) (f1 : Flags) (fs1 : FS)
    (h : init_logdirs flags fs = .error (e, f1, fs1)) :
    f1 = initFlagsF flags ∧ fs1 = init_logdirs_fs flags fs ∧
    (flags.mode != "train") = true ∧
    pathExists (init_logdirs_fs flags fs)
      (pathJoin flags.base_logdir "checkpoint.tar") = false := by
  rw [init_logdirs_spec] at h
  by_cases hc :
      (flags.mode != "train"
        && !pathExists (init_logdirs_fs flags fs)
            (pathJoin flags.base_logdir "checkpoint.tar")) = true
  · rw [if_pos hc] at h
    simp only [Except.error.injEq, Prod.mk.injEq] at h
    rw [Bool.and_eq_true] at hc
    refine ⟨h.2.1.symm, h.2.2.symm, hc.1, ?_⟩
    have := hc.2
    simp only [Bool.not_eq_true'] at this
    exact this
  · rw [if_neg hc] at h
    simp at h

lemma init_fs_train (flags : Flags) (fs : FS) (hm : flags.mode = "train") :
    init_logdirs_fs flags fs =
      makedirs (makedirs fs (pathJoin flags.base_logdir flags.mode))
        (pathJoin (pathJoin flags.base_logdir flags.mode) "torchbeast") := by
  unfold init_logdirs_fs
  rw [hm]
  simp

lemma init_fs_nontrain (flags : Flags) (fs : FS) (hm : flags.mode ≠ "train") :
    init_logdirs_fs flags fs =
      makedirs
        (makedirs
          (if pathExists fs (pathJoin flags.base_logdir flags.mode) then
            rmtree fs (pathJoin flags.base_logdir flags.mode)
          else fs)
          (pathJoin flags.base_logdir flags.mode))
        (pathJoin (pathJoin flags.base_logdir flags.mode) "torchbeast") := by
  unfold init_logdirs_fs
  have hb : (flags.mode != "train") = true := by simp [bne_iff_ne, hm]
  rw [hb]
  simp only [Bool.true_and]

lemma pathJoin_ne_nil (base : Path) (comp : String) : pathJoin base comp ≠ [] := by
  simp [pathJoin]

lemma clean_base (fs : FS) (hwf : fs.wf) (L : Path) (hL : L ≠ []) :
    ∀ q, L <+: q →
      q ∉ (if pathExists fs L then rmtree fs L else fs).dirs ∧
      q ∉ (if pathExists fs L then rmtree fs L else fs).files := by
  intro q hq
  by_cases hex : pathExists fs L = true
  · rw [if_pos hex]
    constructor
    · intro hmem
      exact ((rmtree_dirs fs L q).mp hmem).2 hq
    · intro hmem
      exact ((rmtree_files fs L q).mp hmem).2 hq
  · rw [if_neg hex]
    exact no_entries_below fs hwf L hL hex q hq

lemma init_fs_rerun (flags : Flags) (fs : FS) (hwf : fs.wf) :
    init_logdirs_fs (initFlagsF flags) (init_logdirs_fs flags fs)
      = init_logdirs_fs flags fs := by
  by_cases hm : flags.mode = "train"
  · rw [init_fs_train (initFlagsF flags) _ (by rw [initFlagsF_mode]; exact hm)]
    rw [initFlagsF_mode, initFlagsF_base]
    rw [init_fs_train flags fs hm]
    exact makedirs_absorb fs _ _
  · have hL : pathJoin flags.base_logdir flags.mode ≠ [] := pathJoin_ne_nil _ _
    rw [init_fs_nontrain (initFlagsF flags) _ (by rw [initFlagsF_mode]; exact hm)]
    rw [initFlagsF_mode, initFlagsF_base]
    rw [init_fs_nontrain flags fs hm]
    have hmem : pathExists
        (makedirs
          (makedirs
            (if pathExists fs (pathJoin flags.base_logdir flags.mode) then
              rmtree fs (pathJoin flags.base_logdir flags.mode)
            else fs)
            (pathJoin flags.base_logdir flags.mode))
          (pathJoin (pathJoin flags.base_logdir flags.mode) "torchbeast"))
        (pathJoin flags.base_logdir flags.mode) = true := by
      rw [pathExists_iff]
      left
      rw [makedirs_dirs]
      right
      rw [makedirs_dirs]
      left
      exact self_mem_prefixesNE _ hL
    rw [if_pos hmem]
    exact rerun_fs _ _ "torchbeast" (clean_base fs hwf _ hL)

/-- Claim C3: `init_logdirs` is idempotent across reruns; in mode `"train"`
it leaves existing directories and files in place, while in any other mode
it first deletes the pre-existing log directory tree (so no file below
`logdir` survives); rerunning it on its own output reproduces exactly the
same flags and directory state. -/
theorem claim3_init_logdirs_idempotent (flags : Flags) (fs : FS) (f1 : Flags)
    (fs1 : FS) (hwf : fs.wf) (h : init_logdirs flags fs = .ok (f1, fs1)) :
    (flags.mode = "train" → fs.dirs ⊆ fs1.dirs ∧ fs1.files = fs.files) ∧
    (flags.mode ≠ "train" →
      ∀ q ∈ fs1.files, ¬ pathJoin flags.base_logdir flags.mode <+: q) ∧
    init_logdirs f1 fs1 = .ok (f1, fs1) := by
  obtain ⟨hf1, hfs1, hcond⟩ := init_ok_dest flags fs f1 fs1 h
  subst hf1
  subst hfs1
  refine ⟨?_, ?_, ?_⟩
  · intro hm
    rw [init_fs_train flags fs hm]
    constructor
    · intro q hq
      rw [makedirs_dirs, makedirs_dirs]
      exact Or.inr (Or.inr hq)
    · rw [makedirs_files, makedirs_files]
  · intro hm q hq
    rw [init_fs_nontrain flags fs hm, makedirs_files, makedirs_files] at hq
    intro hpre
    exact (clean_base fs hwf _ (pathJoin_ne_nil _ _) q hpre).2 hq
  · rw [init_logdirs_spec]
    rw [init_fs_rerun flags fs hwf, initFlagsF_idem, initFlagsF_mode, initFlagsF_base]
    rw [hcond]
    simp

/-- Witness for C3: on a filesystem with a checkpoint and a stale `test`
log directory, a successful first `init_logdirs` run in mode `test` is
reproduced exactly by a second run on its own output. -/
theorem claim3_init_logdirs_idempotent_witness :
    init_logdirs (init_logdirs_flags (mkFlags "test" ["logs"]) fsTest)
        (init_logdirs_fs (mkFlags "test" ["logs"]) fsTest) =
      .ok (init_logdirs_flags (mkFlags "test" ["logs"]) fsTest,
        init_logdirs_fs (mkFlags "test" ["logs"]) fsTest) :=
  (claim3_init_logdirs_idempotent (mkFlags "test" ["logs"]) fsTest
    (init_logdirs_flags (mkFlags "test" ["logs"]) fsTest)
    (init_logdirs_fs (mkFlags "test" ["logs"]) fsTest)
    (by decide) rfl).2.2

lemma run_remote_error_evs (flags : Flags) (fs : FS) (t : Bool) (e : Err)
    (f' : Flags) (fs' : FS) (evs : List Ev)
    (h : run_remote flags fs t = .error (e, f', fs', evs)) : evs = [] := by
  rcases hi : init_logdirs { flags with mode := if t then "train" else "test" } fs with
      ⟨e1, f1, fs1⟩ | ⟨f1, fs1⟩
  · simp only [run_remote, hi, Except.error.injEq, Prod.mk.injEq] at h
    exact h.2.2.2.symm
  · simp [run_remote, hi] at h

lemma trace_error_evs (flags : Flags) (fs : FS) (e : Err)
    (f' : Flags) (fs' : FS) (evs : List Ev)
    (h : trace flags fs = .error (e, f', fs', evs)) : evs = [] := by
  rcases hi : init_logdirs { flags with mode := "trace" } fs with
      ⟨e1, f1, fs1⟩ | ⟨f1, fs1⟩
  · simp only [trace, hi, Except.error.injEq, Prod.mk.injEq] at h
    exact h.2.2.2.symm
  · simp [trace, hi] at h

lemma test_local_error_evs (flags : Flags) (fs : FS) (e : Err)
    (f' : Flags) (fs' : FS) (evs : List Ev)
    (h : test_local flags fs = .error (e, f', fs', evs)) : evs = [] := by
  rcases hi : init_logdirs { flags with mode := "test" } fs with
      ⟨e1, f1, fs1⟩ | ⟨f1, fs1⟩
  · simp only [test_local, hi, Except.error.injEq, Prod.mk.injEq] at h
    exact h.2.2.2.symm
  · simp only [test_local, hi] at h
    by_cases hp : pathExists fs1 f1.traced_model = true
    · rw [if_pos hp] at h
      simp at h
    · rw [if_neg hp] at h
      rcases ht : trace f1 fs1 with ⟨e2, f2, fs2, evs2⟩ | ⟨f2, fs2, evs2⟩
      · rw [ht] at h
        simp only [Except.error.injEq, Prod.mk.injEq] at h
        have := trace_error_evs f1 fs1 e2 f2 fs2 evs2 ht
        rw [← h.2.2.2, this]
      · rw [ht] at h
        simp at h

/-- Claim C1: for every mode other than `"train"`, `init_logdirs` checks
that the checkpoint path `base_logdir/checkpoint.tar` exists (on the
filesystem as left by its directory phase) and aborts with an assertion
error exactly when it does not; for mode `"train"` no checkpoint-existence
check is performed and the call always succeeds. -/
theorem claim1_checkpoint_precondition (flags : Flags) (fs : FS) :
    (flags.mode = "train" → (init_logdirs flags fs).isOk = true) ∧
    (flags.mode ≠ "train" →
      ((init_logdirs flags fs).isOk = false ↔
        pathExists (init_logdirs_fs flags fs)
          (pathJoin flags.base_logdir "checkpoint.tar") = false)) := by
  rw [init_logdirs_spec]
  constructor
  · intro hm
    rw [hm]
    simp [Except.isOk, Except.toBool]
  · intro hm
    have hb : (flags.mode != "train") = true := by simp [bne_iff_ne, hm]
    rw [hb, Bool.true_and]
    rcases hpe : pathExists (init_logdirs_fs flags fs)
        (pathJoin flags.base_logdir "checkpoint.tar") with _ | _
    · simp [Except.isOk, Except.toBool]
    · simp [Except.isOk, Except.toBool]

/-- Witness for C1: with base logdir `logs` on an empty filesystem, mode
`trace` aborts (no checkpoint), while mode `train` succeeds. -/
theorem claim1_checkpoint_precondition_witness :
    (init_logdirs (mkFlags "trace" ["logs"]) fsEmpty).isOk = false ∧
    (init_logdirs (mkFlags "train" ["logs"]) fsEmpty).isOk = true :=
  ⟨((claim1_checkpoint_precondition (mkFlags "trace" ["logs"]) fsEmpty).2
      (by decide)).mpr (by decide),
    (claim1_checkpoint_precondition (mkFlags "train" ["logs"]) fsEmpty).1 rfl⟩

/-- Claim C2: `main` dispatches totally over the four modes — `train`,
`test`, `test_local` and `trace` each map to exactly their own code path —
and any other mode value raises a fatal `RuntimeError` with the state
untouched and no subprocess events. -/
theorem claim2_mode_dispatch_total (flags : Flags) (fs : FS) :
    (flags.mode = "train" → main flags fs = main_train flags fs) ∧
    (flags.mode = "test" → main flags fs = run_remote flags fs false) ∧
    (flags.mode = "test_local" → main flags fs = test_local flags fs) ∧
    (flags.mode = "trace" → main flags fs = trace flags fs) ∧
    (flags.mode ≠ "train" → flags.mode ≠ "test" → flags.mode ≠ "test_local" →
      flags.mode ≠ "trace" →
      main flags fs =
        .error (Err.runtime ("Unknown mode " ++ flags.mode), flags, fs, [])) := by
  refine ⟨?_, ?_, ?_, ?_, ?_⟩
  · intro h; simp [main, h]
  · intro h; simp [main, h]
  · intro h; simp [main, h]
  · intro h; simp [main, h]
  · intro h1 h2 h3 h4
    simp only [main, beq_iff_eq]
    rw [if_neg h1, if_neg h2, if_neg h3, if_neg h4]

/-- Witness for C2: an unknown mode `bogus` makes `main` fail with a
`RuntimeError`, leaving flags and filesystem untouched and starting no
subprocess. -/
theorem claim2_mode_dispatch_total_witness :
    main (mkFlags "bogus" ["logs"]) fsEmpty =
      .error (Err.runtime ("Unknown mode " ++ "bogus"),
        mkFlags "bogus" ["logs"], fsEmpty, []) :=
  (claim2_mode_dispatch_total (mkFlags "bogus" ["logs"]) fsEmpty).2.2.2.2
    (by decide) (by decide) (by decide) (by decide)

/-- Claim C6: `init_logdirs` derives the persisted-state paths
deterministically from `base_logdir` and `mode`, in both of its outcomes:
`logdir = base_logdir/mode`, `savedir = logdir/torchbeast`,
`checkpoint = base_logdir/checkpoint.tar` and
`traced_model = base_logdir/traced_model.pt`. -/
theorem claim6_derived_paths (flags : Flags) (fs : FS) :
    (init_logdirs_flags flags fs).logdir = pathJoin flags.base_logdir flags.mode ∧
    (init_logdirs_flags flags fs).savedir =
      pathJoin (pathJoin flags.base_logdir flags.mode) "torchbeast" ∧
    (init_logdirs_flags flags fs).checkpoint =
      pathJoin flags.base_logdir "checkpoint.tar" ∧
    (init_logdirs_flags flags fs).traced_model =
      pathJoin flags.base_logdir "traced_model.pt" := by
  rw [init_logdirs_flags_eq]
  exact ⟨rfl, rfl, rfl, rfl⟩

lemma run_remote_ok_dest (flags : Flags) (fs : FS) (t : Bool) (f' : Flags)
    (fs' : FS) (evs : List Ev)
    (h : run_remote flags fs t = .ok (f', fs', evs)) :
    f' = { initFlagsF { flags with mode := if t then "train" else "test" } with
            address := "unix:" ++ renderPath rl_server_path
            disable_cuda := !t
            cc_env_mode := "remote" } ∧
    fs' = removeFile
        (init_logdirs_fs { flags with mode := if t then "train" else "test" } fs)
        rl_server_path ∧
    evs = [Ev.start "polybeast" f', Ev.start "pantheon_env" f'] ++
        (if t then [Ev.join "polybeast", Ev.kill "pantheon_env"]
         else [Ev.join "pantheon_env", Ev.kill "polybeast"]) := by
  rcases hi : init_logdirs { flags with mode := if t then "train" else "test" } fs with
      ⟨e1, f1, fs1⟩ | ⟨f1, fs1⟩
  · simp [run_remote, hi] at h
  · simp only [run_remote, hi, Except.ok.injEq, Prod.mk.injEq] at h
    obtain ⟨h1, h2, h3⟩ := h
    obtain ⟨hf1, hfs1, -⟩ := init_ok_dest _ _ _ _ hi
    subst hf1
    subst hfs1
    exact ⟨h1.symm, h2.symm, by rw [← h3, ← h1]⟩

/-- Claim C4: in `run_remote`, both processes are started (polybeast first),
then with `train = true` polybeast is joined and pantheon_env killed, and
with `train = false` pantheon_env is joined and polybeast killed — exactly
one joined and the other killed, in that fixed order. -/
theorem claim4_join_kill_order (flags : Flags) (fs : FS) (t : Bool) (f' : Flags)
    (fs' : FS) (evs : List Ev)
    (h : run_remote flags fs t = .ok (f', fs', evs)) :
    evs = [Ev.start "polybeast" f', Ev.start "pantheon_env" f'] ++
      (if t then [Ev.join "polybeast", Ev.kill "pantheon_env"]
       else [Ev.join "pantheon_env", Ev.kill "polybeast"]) :=
  (run_remote_ok_dest flags fs t f' fs' evs h).2.2

/-- Witness for C4: a concrete training run starts polybeast and
pantheon_env, joins polybeast and kills pantheon_env, in that order. -/
theorem claim4_join_kill_order_witness :
    Res.evsOf (run_remote (mkFlags "test" ["logs"]) fsTest true) =
      [Ev.start "polybeast" (Res.flagsOf (run_remote (mkFlags "test" ["logs"]) fsTest true)),
        Ev.start "pantheon_env" (Res.flagsOf (run_remote (mkFlags "test" ["logs"]) fsTest true)),
        Ev.join "polybeast", Ev.kill "pantheon_env"] :=
  claim4_join_kill_order (mkFlags "test" ["logs"]) fsTest true
    (Res.flagsOf (run_remote (mkFlags "test" ["logs"]) fsTest true))
    (Res.fsOf (run_remote (mkFlags "test" ["logs"]) fsTest true))
    (Res.evsOf (run_remote (mkFlags "test" ["logs"]) fsTest true)) rfl

/-- Claim C7: in both remote modes, before either subprocess is started,
the stale socket file at `/tmp/rl_server_path` has been removed and
`flags.address` is `unix:/tmp/rl_server_path`; both start events carry the
same flags value, hence the same rendezvous address. -/
theorem claim7_socket_address (flags : Flags) (fs : FS) (t : Bool) (f' : Flags)
    (fs' : FS) (evs : List Ev)
    (h : run_remote flags fs t = .ok (f', fs', evs)) :
    f'.address = "unix:/tmp/rl_server_path" ∧
    rl_server_path ∉ fs'.files ∧
    evs.take 2 = [Ev.start "polybeast" f', Ev.start "pantheon_env" f'] := by
  obtain ⟨h1, h2, h3⟩ := run_remote_ok_dest flags fs t f' fs' evs h
  refine ⟨?_, ?_, ?_⟩
  · rw [h1]
    rfl
  · rw [h2]
    exact Finset.not_mem_erase _ _
  · rw [h3]
    rfl

/-- Witness for C7: a concrete remote test run has the Unix-socket address
set, no stale socket file, and both subprocesses started with the same
flags. -/
theorem claim7_socket_address_witness :
    (Res.flagsOf (run_remote (mkFlags "x" ["logs"]) fsTest false)).address =
        "unix:/tmp/rl_server_path" ∧
    rl_server_path ∉ (Res.fsOf (run_remote (mkFlags "x" ["logs"]) fsTest false)).files ∧
    (Res.evsOf (run_remote (mkFlags "x" ["logs"]) fsTest false)).take 2 =
      [Ev.start "polybeast" (Res.flagsOf (run_remote (mkFlags "x" ["logs"]) fsTest false)),
        Ev.start "pantheon_env" (Res.flagsOf (run_remote (mkFlags "x" ["logs"]) fsTest false))] :=
  claim7_socket_address (mkFlags "x" ["logs"]) fsTest false
    (Res.flagsOf (run_remote (mkFlags "x" ["logs"]) fsTest false))
    (Res.fsOf (run_remote (mkFlags "x" ["logs"]) fsTest false))
    (Res.evsOf (run_remote (mkFlags "x" ["logs"]) fsTest false)) rfl

/-- Claim C8: `run_remote` sets `flags.disable_cuda` to the negation of
`train` — CUDA enabled for training, disabled for remote testing — before
either subprocess is started (both start events carry that flags value). -/
theorem claim8_disable_cuda (flags : Flags) (fs : FS) (t : Bool) (f' : Flags)
    (fs' : FS) (evs : List Ev)
    (h : run_remote flags fs t = .ok (f', fs', evs)) :
    f'.disable_cuda = !t ∧
    evs.take 2 = [Ev.start "polybeast" f', Ev.start "pantheon_env" f'] := by
  obtain ⟨h1, -, h3⟩ := run_remote_ok_dest flags fs t f' fs' evs h
  refine ⟨?_, ?_⟩
  · rw [h1]
  · rw [h3]
    rfl

/-- Witness for C8: a concrete remote test run (`train = false`) has
`disable_cuda = true` in the flags both subprocesses are started with. -/
theorem claim8_disable_cuda_witness :
    (Res.flagsOf (run_remote (mkFlags "x" ["logs"]) fsTest false)).disable_cuda = true ∧
    (Res.evsOf (run_remote (mkFlags "x" ["logs"]) fsTest false)).take 2 =
      [Ev.start "polybeast" (Res.flagsOf (run_remote (mkFlags "x" ["logs"]) fsTest false)),
        Ev.start "pantheon_env" (Res.flagsOf (run_remote (mkFlags "x" ["logs"]) fsTest false))] :=
  claim8_disable_cuda (mkFlags "x" ["logs"]) fsTest false
    (Res.flagsOf (run_remote (mkFlags "x" ["logs"]) fsTest false))
    (Res.fsOf (run_remote (mkFlags "x" ["logs"]) fsTest false))
    (Res.evsOf (run_remote (mkFlags "x" ["logs"]) fsTest false)) rfl

/-- Claim C9: `test_local` passes only a deep copy of the flags to `trace`,
so whatever `trace` mutates, the flags value the local test finally runs
with still has `mode = "test"` and `cc_env_mode = "local"`, and the
pantheon_env process is started with exactly that value. -/
theorem claim9_deepcopy_frame (flags : Flags) (fs : FS) (f' : Flags) (fs' : FS)
    (evs : List Ev) (h : test_local flags fs = .ok (f', fs', evs)) :
    f'.mode = "test" ∧ f'.cc_env_mode = "local" ∧
    ∃ evs0, evs = evs0 ++ [Ev.start "pantheon_env" f', Ev.join "pantheon_env"] := by
  rcases hi : init_logdirs { flags with mode := "test" } fs with
      ⟨e1, f1, fs1⟩ | ⟨f1, fs1⟩
  · simp [test_local, hi] at h
  · simp only [test_local, hi] at h
    obtain ⟨hf1, -, -⟩ := init_ok_dest _ _ _ _ hi
    subst hf1
    by_cases hp : pathExists fs1 (initFlagsF { flags with mode := "test" }).traced_model = true
    · rw [if_pos hp] at h
      simp only [Except.ok.injEq, Prod.mk.injEq] at h
      obtain ⟨h1, h2, h3⟩ := h
      subst h1
      subst h3
      exact ⟨rfl, rfl, ⟨[], rfl⟩⟩
    · rw [if_neg hp] at h
      rcases ht : trace (initFlagsF { flags with mode := "test" }) fs1 with
          ⟨e2, f2, fs2, evs2⟩ | ⟨f2, fs2, evs2⟩
      · rw [ht] at h
        simp at h
      · rw [ht] at h
        simp only [Except.ok.injEq, Prod.mk.injEq] at h
        obtain ⟨h1, h2, h3⟩ := h
        subst h1
        subst h3
        exact ⟨rfl, rfl, ⟨evs2, rfl⟩⟩

/-- Witness for C9: a concrete local test on a filesystem with a checkpoint
but no traced model (so `trace` runs first) still ends with
`mode = "test"` and `cc_env_mode = "local"`, pantheon_env started last. -/
theorem claim9_deepcopy_frame_witness :
    (Res.flagsOf (test_local (mkFlags "test_local" ["logs"]) fsCkpt)).mode = "test" ∧
    (Res.flagsOf (test_local (mkFlags "test_local" ["logs"]) fsCkpt)).cc_env_mode =
      "local" ∧
    ∃ evs0, Res.evsOf (test_local (mkFlags "test_local" ["logs"]) fsCkpt) =
      evs0 ++ [Ev.start "pantheon_env"
          (Res.flagsOf (test_local (mkFlags "test_local" ["logs"]) fsCkpt)),
        Ev.join "pantheon_env"] :=
  claim9_deepcopy_frame (mkFlags "test_local" ["logs"]) fsCkpt
    (Res.flagsOf (test_local (mkFlags "test_local" ["logs"]) fsCkpt))
    (Res.fsOf (test_local (mkFlags "test_local" ["logs"]) fsCkpt))
    (Res.evsOf (test_local (mkFlags "test_local" ["logs"]) fsCkpt)) rfl

lemma trace_ok_evs (flags : Flags) (fs : FS) (f' : Flags) (fs' : FS)
    (evs : List Ev) (h : trace flags fs = .ok (f', fs', evs)) :
    evs = [Ev.start "polybeast" f', Ev.join "polybeast"] := by
  rcases hi : init_logdirs { flags with mode := "trace" } fs with
      ⟨e1, f1, fs1⟩ | ⟨f1, fs1⟩
  · simp [trace, hi] at h
  · simp only [trace, hi, Except.ok.injEq, Prod.mk.injEq] at h
    obtain ⟨h1, h2, h3⟩ := h
    subst h1
    exact h3.symm

/-- Claim C5 (amended): `run_remote` starts exactly two subprocesses and
`trace` exactly one; `test_local` itself starts exactly one (pantheon_env):
every successful `test_local` run starts exactly one subprocess when the
traced model exists after its `init_logdirs`, and exactly two when it is
missing (the nested `trace` run starting polybeast as well). -/
theorem claim5_process_counts (flags : Flags) (fs : FS) :
    (∀ t f' fs' evs, run_remote flags fs t = .ok (f', fs', evs) →
      countStarts evs = 2) ∧
    (∀ f' fs' evs, trace flags fs = .ok (f', fs', evs) → countStarts evs = 1) ∧
    (∀ f' fs' evs, test_local flags fs = .ok (f', fs', evs) →
      (countStarts evs = 1 ∨ countStarts evs = 2) ∧
      (pathExists (init_logdirs_fs { flags with mode := "test" } fs)
          (pathJoin flags.base_logdir "traced_model.pt") = true →
        countStarts evs = 1) ∧
      (pathExists (init_logdirs_fs { flags with mode := "test" } fs)
          (pathJoin flags.base_logdir "traced_model.pt") = false →
        countStarts evs = 2)) := by
  refine ⟨?_, ?_, ?_⟩
  · intro t f' fs' evs h
    obtain ⟨-, -, h3⟩ := run_remote_ok_dest flags fs t f' fs' evs h
    rw [h3]
    cases t <;> rfl
  · intro f' fs' evs h
    rw [trace_ok_evs flags fs f' fs' evs h]
    rfl
  · intro f' fs' evs h
    rcases hi : init_logdirs { flags with mode := "test" } fs with
        ⟨e1, f1, fs1⟩ | ⟨f1, fs1⟩
    · simp [test_local, hi] at h
    · obtain ⟨hf1, hfs1, -⟩ := init_ok_dest _ _ _ _ hi
      subst hf1
      subst hfs1
      simp only [test_local, hi] at h
      by_cases hp : pathExists (init_logdirs_fs { flags with mode := "test" } fs)
          (initFlagsF { flags with mode := "test" }).traced_model = true
      · rw [if_pos hp] at h
        simp only [Except.ok.injEq, Prod.mk.injEq] at h
        obtain ⟨-, -, h3⟩ := h
        subst h3
        refine ⟨Or.inl rfl, fun _ => rfl, fun hc => ?_⟩
        have hc' : pathExists (init_logdirs_fs { flags with mode := "test" } fs)
            (initFlagsF { flags with mode := "test" }).traced_model = false := hc
        rw [hc'] at hp
        exact Bool.noConfusion hp
      · rw [if_neg hp] at h
        rcases ht : trace (initFlagsF { flags with mode := "test" })
            (init_logdirs_fs { flags with mode := "test" } fs) with
            ⟨e2, f2, fs2, evs2⟩ | ⟨f2, fs2, evs2⟩
        · rw [ht] at h
          simp at h
        · rw [ht] at h
          simp only [Except.ok.injEq, Prod.mk.injEq] at h
          obtain ⟨-, -, h3⟩ := h
          subst h3
          rw [trace_ok_evs _ _ _ _ _ ht]
          exact ⟨Or.inr rfl, fun hc => absurd hc hp, fun _ => rfl⟩

/-- Witness for C5 (amended): concrete runs — a remote training run starts
two subprocesses, a trace run starts one, and a local test on a filesystem
whose traced model is missing starts exactly two. -/
theorem claim5_process_counts_witness :
    countStarts (Res.evsOf (run_remote (mkFlags "x" ["logs"]) fsTest true)) = 2 ∧
    countStarts (Res.evsOf (trace (mkFlags "x" ["logs"]) fsTest)) = 1 ∧
    countStarts (Res.evsOf (test_local (mkFlags "test_local" ["logs"]) fsCkpt)) = 2 :=
  ⟨(claim5_process_counts (mkFlags "x" ["logs"]) fsTest).1 true
      (Res.flagsOf (run_remote (mkFlags "x" ["logs"]) fsTest true))
      (Res.fsOf (run_remote (mkFlags "x" ["logs"]) fsTest true))
      (Res.evsOf (run_remote (mkFlags "x" ["logs"]) fsTest true)) rfl,
    (claim5_process_counts (mkFlags "x" ["logs"]) fsTest).2.1
      (Res.flagsOf (trace (mkFlags "x" ["logs"]) fsTest))
      (Res.fsOf (trace (mkFlags "x" ["logs"]) fsTest))
      (Res.evsOf (trace (mkFlags "x" ["logs"]) fsTest)) rfl,
    (((claim5_process_counts (mkFlags "test_local" ["logs"]) fsCkpt).2.2
      (Res.flagsOf (test_local (mkFlags "test_local" ["logs"]) fsCkpt))
      (Res.fsOf (test_local (mkFlags "test_local" ["logs"]) fsCkpt))
      (Res.evsOf (test_local (mkFlags "test_local" ["logs"]) fsCkpt)) rfl).2.2
      (by decide))⟩

/-- Counterexample to C5 as stated: on a filesystem with a checkpoint but no
traced model, a successful `test_local` run starts two subprocesses, not
exactly one. -/
theorem claim5_counterexample :
    (test_local (mkFlags "test_local" ["logs"]) fsCkpt).isOk = true ∧
    countStarts (Res.evsOf (test_local (mkFlags "test_local" ["logs"]) fsCkpt)) = 2 :=
  ⟨rfl, rfl⟩

/-- Claim C10: when the checkpoint precondition fails in a non-train mode,
`init_logdirs` aborts only after mutating the filesystem — at the moment
the assertion error is raised, `logdir` and `savedir` exist as fresh
directories and no file below `logdir` survives — and the abort happens
before any subprocess is spawned: every mode driver that fails propagates
the error with an empty event list. -/
theorem claim10_abort_not_atomic (flags : Flags) (fs : FS) (e : Err)
    (f1 : Flags) (fs1 : FS) (hwf : fs.wf) (hm : flags.mode ≠ "train")
    (h : init_logdirs flags fs = .error (e, f1, fs1)) :
    pathJoin flags.base_logdir flags.mode ∈ fs1.dirs ∧
    pathJoin (pathJoin flags.base_logdir flags.mode) "torchbeast" ∈ fs1.dirs ∧
    (∀ q ∈ fs1.files, ¬ pathJoin flags.base_logdir flags.mode <+: q) ∧
    (∀ t e' f' fs' evs, run_remote flags fs t = .error (e', f', fs', evs) →
      evs = []) ∧
    (∀ e' f' fs' evs, trace flags fs = .error (e', f', fs', evs) → evs = []) ∧
    (∀ e' f' fs' evs, test_local flags fs = .error (e', f', fs', evs) →
      evs = []) := by
  obtain ⟨-, hfs1, -, -⟩ := init_error_dest flags fs e f1 fs1 h
  subst hfs1
  rw [init_fs_nontrain flags fs hm]
  refine ⟨?_, ?_, ?_, ?_, ?_, ?_⟩
  · rw [makedirs_dirs]
    right
    rw [makedirs_dirs]
    left
    exact self_mem_prefixesNE _ (pathJoin_ne_nil _ _)
  · rw [makedirs_dirs]
    left
    exact self_mem_prefixesNE _ (pathJoin_ne_nil _ _)
  · intro q hq
    rw [makedirs_files, makedirs_files] at hq
    intro hpre
    exact (clean_base fs hwf _ (pathJoin_ne_nil _ _) q hpre).2 hq
  · intro t e' f' fs' evs h'
    exact run_remote_error_evs flags fs t e' f' fs' evs h'
  · intro e' f' fs' evs h'
    exact trace_error_evs flags fs e' f' fs' evs h'
  · intro e' f' fs' evs h'
    exact test_local_error_evs flags fs e' f' fs' evs h'

/-- Witness for C10: with a stale `trace` log directory and no checkpoint,
the aborted run has already created fresh `logdir` and `savedir`
directories and cleared the old log file. -/
theorem claim10_abort_not_atomic_witness :
    pathJoin ["logs"] "trace" ∈
        (init_logdirs_fs (mkFlags "trace" ["logs"]) fsNoCkpt).dirs ∧
    pathJoin (pathJoin ["logs"] "trace") "torchbeast" ∈
        (init_logdirs_fs (mkFlags "trace" ["logs"]) fsNoCkpt).dirs ∧
    (∀ q ∈ (init_logdirs_fs (mkFlags "trace" ["logs"]) fsNoCkpt).files,
      ¬ pathJoin ["logs"] "trace" <+: q) :=
  let h := claim10_abort_not_atomic (mkFlags "trace" ["logs"]) fsNoCkpt
    (init_logdirs_err (mkFlags "trace" ["logs"]) fsNoCkpt)
    (init_logdirs_flags (mkFlags "trace" ["logs"]) fsNoCkpt)
    (init_logdirs_fs (mkFlags "trace" ["logs"]) fsNoCkpt)
    (by decide) (by decide) rfl
  ⟨h.1, h.2.1, h.2.2.1⟩

end Train
